import Mathlib

/-!
Verification of the cad-agent repository: a shallow embedding of its data
model and operations (part generators, generator registry, acceptance
validator, engineering validator, orchestrator loop) together with theorems
settling the specification claims.  Numeric parameters are modelled as
rationals; error strings with embedded formatted values are modelled as
structured error values.
-/

namespace CadAgent

/-- Structured counterpart of exceptions.ValidationError: it records the part
type, the offending parameter name and the reason message. -/
structure ValidationErr where
  partType : String
  paramName : String
  message : String
  deriving Repr, DecidableEq

/-- One entry of the sections array of a stepped shaft (parts/shaft.py):
a diameter and a length. -/
structure ShaftSection where
  diameter : ℚ
  length : ℚ
  deriving Repr, DecidableEq

/-- The per-section positivity loop of SteppedShaftGenerator.validate
(parts/shaft.py lines 63-69): the first section with a non-positive diameter
or length yields the corresponding ValidationError. -/
def validateSectionsFrom : ℕ → List ShaftSection → Option ValidationErr
  | _, [] => none
  | i, s :: rest =>
    if s.diameter ≤ 0 then
      some ⟨"stepped_shaft", "sections[" ++ toString i ++ "].diameter", "直径必须大于 0"⟩
    else if s.length ≤ 0 then
      some ⟨"stepped_shaft", "sections[" ++ toString i ++ "].length", "长度必须大于 0"⟩
    else validateSectionsFrom (i + 1) rest

/-- SteppedShaftGenerator.validate (parts/shaft.py lines 58-69): requires at
least 2 sections, then positivity of every diameter and length.  Returns
none on success, or the first raised ValidationError. -/
def SteppedShaftGenerator.validate (sections : List ShaftSection) : Option ValidationErr :=
  if sections.length < 2 then
    some ⟨"stepped_shaft", "sections", "阶梯轴至少需要 2 段"⟩
  else
    validateSectionsFrom 0 sections

/-- The per-section positivity loop of gen_parts._validate_stepped_shaft
(gen_parts.py lines 921-925), raising a plain ValueError message. -/
def legacySectionsPositiveFrom : ℕ → List ShaftSection → Option String
  | _, [] => none
  | i, s :: rest =>
    if s.diameter ≤ 0 ∨ s.length ≤ 0 then
      some ("第 " ++ toString (i + 1) ++ " 段尺寸参数无效")
    else legacySectionsPositiveFrom (i + 1) rest

/-- The diameter monotonicity loop of gen_parts._validate_stepped_shaft
(gen_parts.py lines 928-930): fails on the first adjacent pair whose diameter
increases. -/
def legacyMonotoneCheck : List ShaftSection → Option String
  | s1 :: s2 :: rest =>
    if s1.diameter < s2.diameter then some "阶梯轴直径应从一端向另一端递减"
    else legacyMonotoneCheck (s2 :: rest)
  | _ => none

/-- gen_parts._validate_stepped_shaft (gen_parts.py lines 915-930): the legacy
stepped-shaft validator used by the orchestrator path through
gen_parts.generate_part.  Checks segment count, positivity, then that
diameters are non-increasing along the traversal order. -/
def validate_stepped_shaft (sections : List ShaftSection) : Option String :=
  if sections.length < 2 then some "阶梯轴至少需要 2 段"
  else
    match legacySectionsPositiveFrom 0 sections with
    | some e => some e
    | none => legacyMonotoneCheck sections

/-- Structured counterpart of exceptions.RegistrationError, carrying the part
type and (for duplicates) the already-bound generator. -/
inductive RegistrationErr (α : Type) where
  | duplicate (partType : String) (existing : α)
  | notFound (partType : String)
  deriving Repr, DecidableEq

/-- The generator registry (core/registry.py): a finite map from family
identifier to generator class, modelled as an association list with unique
keys maintained by register. -/
structure Registry (α : Type) where
  generators : List (String × α)
  deriving Repr, DecidableEq

/-- GeneratorRegistry.get (core/registry.py lines 34-37): dictionary lookup
returning the bound generator class or none. -/
def Registry.get {α : Type} (r : Registry α) (partType : String) : Option α :=
  (r.generators.find? (fun p => p.1 == partType)).map (·.2)

/-- GeneratorRegistry.register (core/registry.py lines 24-32): fails with a
duplicate-registration error when the family identifier is already bound,
binds it otherwise. -/
def Registry.register {α : Type} (r : Registry α) (partType : String) (g : α) :
    Except (RegistrationErr α) (Registry α) :=
  match r.get partType with
  | some existing => .error (.duplicate partType existing)
  | none => .ok ⟨r.generators ++ [(partType, g)]⟩

/-- GeneratorRegistry.create_instance (core/registry.py lines 44-50): the
lookup that fails with an unknown-family RegistrationError when the family
identifier is not bound. -/
def Registry.create_instance {α : Type} (r : Registry α) (partType : String) :
    Except (RegistrationErr α) α :=
  match r.get partType with
  | none => .error (.notFound partType)
  | some g => .ok g

/-- GeneratorRegistry.list_types (core/registry.py lines 39-42):
sorted(keys) of the registry dictionary. -/
def Registry.list_types {α : Type} (r : Registry α) : List String :=
  (r.generators.map (·.1)).mergeSort (fun a b => a ≤ b)

end CadAgent

namespace CadAgent

/-- Claim C1 (code bug): the spec requires stepped-shaft validation to reject
diameter sequences that are not monotonically non-increasing, and the legacy
validator gen_parts._validate_stepped_shaft (the one invoked by the
orchestrator through gen_parts.generate_part) indeed rejects diameters
[20, 30, 25] and accepts [30, 25, 20]; but the registry generator
SteppedShaftGenerator.validate (parts/shaft.py) omits the monotonicity loop
and accepts [20, 30, 25], contradicting the spec and its sibling
implementation. -/
theorem stepped_shaft_monotone_code_bug :
    SteppedShaftGenerator.validate
      [⟨20, 10⟩, ⟨30, 10⟩, ⟨25, 10⟩] = none
  ∧ validate_stepped_shaft
      [⟨20, 10⟩, ⟨30, 10⟩, ⟨25, 10⟩] = some "阶梯轴直径应从一端向另一端递减"
  ∧ validate_stepped_shaft
      [⟨30, 10⟩, ⟨25, 10⟩, ⟨20, 10⟩] = none
  ∧ SteppedShaftGenerator.validate
      [⟨30, 10⟩, ⟨25, 10⟩, ⟨20, 10⟩] = none := by
  refine ⟨?_, ?_, ?_, ?_⟩ <;> decide

end CadAgent

namespace CadAgent

/-- Claim C7: register fails with a duplicate-registration error whenever the
family identifier is already bound and binds it otherwise (so a subsequent
get finds the new generator); lookup (create_instance) of an unbound family
identifier fails with an unknown-family error; and list_types returns exactly
the bound identifiers (a permutation of the keys) in sorted order. -/
theorem registry_ops_spec {α : Type} (r : Registry α) (pt : String) (g : α) :
    (∀ e, r.get pt = some e → r.register pt g = .error (.duplicate pt e))
  ∧ (r.get pt = none →
      r.register pt g = .ok ⟨r.generators ++ [(pt, g)]⟩
      ∧ ∀ r2, r.register pt g = .ok r2 → r2.get pt = some g)
  ∧ (r.get pt = none → r.create_instance pt = .error (.notFound pt))
  ∧ r.list_types.Perm (r.generators.map (·.1))
  ∧ r.list_types.Pairwise (· ≤ ·) := by
  refine ⟨?_, ?_, ?_, ?_, ?_⟩
  · intro e h
    simp [Registry.register, h]
  · intro h
    refine ⟨by simp [Registry.register, h], ?_⟩
    intro r2 h2
    simp only [Registry.register, h] at h2
    cases h2
    have hfind : r.generators.find? (fun p => p.1 == pt) = none := by
      cases hf : r.generators.find? (fun p => p.1 == pt) with
      | none => rfl
      | some v => simp [Registry.get, hf] at h
    simp [Registry.get, List.find?_append, hfind]
  · intro h
    simp [Registry.create_instance, h]
  · exact List.mergeSort_perm _ _
  · have hs := @List.sorted_mergeSort String
      (fun a b : String => decide (a ≤ b))
      (fun a b c hab hbc => by
        simp only [decide_eq_true_eq] at *
        exact le_trans hab hbc)
      (fun a b => by
        simpa only [Bool.or_eq_true, decide_eq_true_eq] using le_total a b)
      (r.generators.map (·.1))
    exact hs.imp (fun h => by simpa using h)

/-- Claim C7 witness: concrete registry operations. Registering the already
bound family gear fails with the duplicate error naming the existing binding;
registering a fresh family plate succeeds; looking up the unbound family
plate fails with the unknown-family error. -/
theorem registry_ops_spec_witness :
    (Registry.register (⟨[("gear", 1)]⟩ : Registry ℕ) "gear" 2
      = .error (.duplicate "gear" 1))
  ∧ (Registry.register (⟨[("gear", 1)]⟩ : Registry ℕ) "plate" 2
      = .ok ⟨[("gear", 1), ("plate", 2)]⟩)
  ∧ (Registry.create_instance (⟨[("gear", 1)]⟩ : Registry ℕ) "plate"
      = .error (.notFound "plate")) := by
  refine ⟨?_, ?_, ?_⟩
  · exact (registry_ops_spec ⟨[("gear", 1)]⟩ "gear" 2).1 1 (by decide)
  · exact ((registry_ops_spec ⟨[("gear", 1)]⟩ "plate" 2).2.1 (by decide)).1
  · exact (registry_ops_spec ⟨[("gear", 1)]⟩ "plate" 2).2.2.1 (by decide)

end CadAgent

namespace CadAgent

/-- A 2D drawing primitive as produced through the ezdxf modelspace: the
variants used by the repository (lwpolyline, line, circle, arc, text), each
tagged with its layer.  Coordinates, radii and angles are rationals. -/
inductive DxfEntity where
  | lwpolyline (points : List (ℚ × ℚ)) (closed : Bool) (layer : String)
  | line (p1 p2 : ℚ × ℚ) (layer : String)
  | circle (center : ℚ × ℚ) (radius : ℚ) (layer : String)
  | arc (center : ℚ × ℚ) (radius : ℚ) (startAngle endAngle : ℚ) (layer : String)
  | text (content : String) (height : ℚ) (pos : ℚ × ℚ) (layer : String)
  deriving Repr, DecidableEq

/-- Layer tag of an entity. -/
def DxfEntity.layerOf : DxfEntity → String
  | .lwpolyline _ _ l => l
  | .line _ _ l => l
  | .circle _ _ l => l
  | .arc _ _ _ _ l => l
  | .text _ _ _ l => l

/-- Entity-kind discriminator for the LWPOLYLINE query. -/
def DxfEntity.isPoly : DxfEntity → Bool
  | .lwpolyline _ _ _ => true
  | _ => false

/-- Entity-kind discriminator for the LINE query. -/
def DxfEntity.isLine : DxfEntity → Bool
  | .line _ _ _ => true
  | _ => false

/-- Entity-kind discriminator for the CIRCLE query. -/
def DxfEntity.isCircle : DxfEntity → Bool
  | .circle _ _ _ => true
  | _ => false

/-- Entity-kind discriminator for the ARC query. -/
def DxfEntity.isArc : DxfEntity → Bool
  | .arc _ _ _ _ _ => true
  | _ => false

/-- Closed flag of a polyline (false for other entities). -/
def DxfEntity.polyClosed : DxfEntity → Bool
  | .lwpolyline _ c _ => c
  | _ => false

/-- A geometry document: the declared layers and the ordered modelspace
entities (core/base.py setup_dxf plus the draw output). -/
structure DxfDoc where
  layers : List String
  entities : List DxfEntity
  deriving Repr, DecidableEq

/-- The modelspace query restricted to one layer
(msp.query with layer filter). -/
def entitiesOn (doc : DxfDoc) (l : String) : List DxfEntity :=
  doc.entities.filter (fun e => e.layerOf == l)

/-- Structured counterparts of the failure messages raised by
validate_dxf.check_plate. -/
inductive AcceptErr where
  | missingLayers (missing : List String)
  | outlineNotSingle
  | outlineNotClosed
  | noOutlineData
  | sizeMismatch (sx sy length width : ℚ)
  | holeCountLow (expected actual : ℕ)
  | slotCountMismatch (slotCount : ℕ)
  | threadIncomplete
  | counterboreIncomplete
  | keywayMissing
  deriving Repr, DecidableEq

/-- validate_dxf.check_layers: fails when any required layer is missing from
the document. -/
def checkLayersE (doc : DxfDoc) (required : List String) : Except AcceptErr Unit :=
  let missing := required.filter (fun l => !(doc.layers.contains l))
  if missing.isEmpty then .ok () else .error (.missingLayers missing)

/-- The envelope (bounding-box) comparison of validate_dxf.check_plate lines
66-70: primary match within 1.0 absolute tolerance (inclusive), transposed
match within strict 1.0 tolerance. -/
def envelopeCheck (sx sy length width : ℚ) : Except AcceptErr Unit :=
  if |sx - length| > 1 ∨ |sy - width| > 1 then
    if |sx - width| < 1 ∧ |sy - length| < 1 then .ok ()
    else .error (.sizeMismatch sx sy length width)
  else .ok ()

/-- One slot entry of a plate spec (length, width, optional position x/y,
angle). -/
structure SlotSpec where
  length : ℚ
  width : ℚ
  x : Option ℚ
  y : Option ℚ
  angle : ℚ
  deriving Repr, DecidableEq

/-- One threaded-hole entry of a plate spec. -/
structure ThreadedHoleSpec where
  diameter : ℚ
  x : ℚ
  y : ℚ
  deriving Repr, DecidableEq

/-- One counterbore entry of a plate spec. -/
structure CounterboreSpec where
  diameter : ℚ
  depth : ℚ
  x : ℚ
  y : ℚ
  through_diameter : ℚ
  deriving Repr, DecidableEq

/-- The keyway object of a plate spec. -/
structure KeywaySpec where
  width : ℚ
  length : ℚ
  x : ℚ
  y : ℚ
  horizontal : Bool
  deriving Repr, DecidableEq

/-- Parameters of the plate family (parts/plate.py, gen_parts.py,
validate_dxf.py), with absent numeric parameters materialized to their
0 defaults by the caller. -/
structure PlateParams where
  length : ℚ
  width : ℚ
  thickness : ℚ
  hole_diameter : ℚ
  corner_offset : ℚ
  chamfer_size : ℚ
  fillet_radius : ℚ
  slots : List SlotSpec
  threaded_holes : List ThreadedHoleSpec
  counterbores : List CounterboreSpec
  keyway : Option KeywaySpec
  deriving Repr, DecidableEq

/-- The outline-shape stage of check_plate (lines 43-56): without edge
treatment exactly one closed outline polyline is required; with chamfer or
fillet any outline-layer polyline, arc or line suffices. -/
def outlineStage (doc : DxfDoc) (p : PlateParams) : Except AcceptErr Unit :=
  if p.chamfer_size = 0 ∧ p.fillet_radius = 0 then
    match (entitiesOn doc "outline").filter (·.isPoly) with
    | [e] => if e.polyClosed then .ok () else .error .outlineNotClosed
    | _ => .error .outlineNotSingle
  else
    if ((entitiesOn doc "outline").filter
        (fun e => e.isPoly || e.isArc || e.isLine)).isEmpty then
      .error .noOutlineData
    else .ok ()

/-- The corner-hole count stage of check_plate (lines 73-78). -/
def cornerHoleStage (doc : DxfDoc) (p : PlateParams) : Except AcceptErr Unit :=
  if p.hole_diameter > 0 then
    if ((entitiesOn doc "hole").filter (·.isCircle)).length < 4 then
      .error (.holeCountLow 4 ((entitiesOn doc "hole").filter (·.isCircle)).length)
    else .ok ()
  else .ok ()

/-- The slot arc-count stage of check_plate (lines 81-84). -/
def slotStage (doc : DxfDoc) (p : PlateParams) : Except AcceptErr Unit :=
  if p.slots ≠ [] then
    if ((entitiesOn doc "hole").filter (·.isArc)).length < p.slots.length * 2 then
      .error (.slotCountMismatch p.slots.length)
    else .ok ()
  else .ok ()

/-- The threaded-hole circle-count stage of check_plate (lines 87-90). -/
def threadStage (doc : DxfDoc) (p : PlateParams) : Except AcceptErr Unit :=
  if p.threaded_holes ≠ [] then
    if ((entitiesOn doc "thread").filter (·.isCircle)).length < p.threaded_holes.length then
      .error .threadIncomplete
    else .ok ()
  else .ok ()

/-- The counterbore circle-count stage of check_plate (lines 93-97). -/
def counterboreStage (doc : DxfDoc) (p : PlateParams) : Except AcceptErr Unit :=
  if p.counterbores ≠ [] then
    if ((entitiesOn doc "hole").filter (·.isCircle)).length < p.counterbores.length * 2 then
      .error .counterboreIncomplete
    else .ok ()
  else .ok ()

/-- The keyway polyline stage of check_plate (lines 100-103). -/
def keywayStage (doc : DxfDoc) (p : PlateParams) : Except AcceptErr Unit :=
  if p.keyway.isSome then
    if ((entitiesOn doc "hole").filter (·.isPoly)).isEmpty then .error .keywayMissing
    else .ok ()
  else .ok ()

/-- validate_dxf.check_plate (lines 25-103): layer checks, outline-shape
check, bounding-box envelope check, then the feature-count checks, failing at
the first violated stage.  The bounding-box computation of
ezdxf.bbox.extents is an external library collaborator, passed in as the
extents oracle returning the (size x, size y) of a nonempty entity set. -/
def check_plate (extents : List DxfEntity → Option (ℚ × ℚ))
    (doc : DxfDoc) (p : PlateParams) : Except AcceptErr Unit :=
  checkLayersE doc ["outline"] >>= fun _ =>
  (if p.hole_diameter > 0 ∨ p.slots ≠ [] ∨ p.threaded_holes ≠ [] ∨
      p.counterbores ≠ [] ∨ p.keyway.isSome then
    checkLayersE doc ["hole"]
  else .ok ()) >>= fun _ =>
  outlineStage doc p >>= fun _ =>
  (match extents (entitiesOn doc "outline") with
   | none => Except.error .noOutlineData
   | some (sx, sy) => envelopeCheck sx sy p.length p.width) >>= fun _ =>
  cornerHoleStage doc p >>= fun _ =>
  slotStage doc p >>= fun _ =>
  threadStage doc p >>= fun _ =>
  counterboreStage doc p >>= fun _ =>
  keywayStage doc p

end CadAgent

namespace CadAgent

/-- Sequencing in the Except monad succeeds only when both halves succeed. -/
theorem exceptSeq_ok {ε : Type} {x : Except ε Unit} {f : Unit → Except ε Unit}
    (h : (x >>= f) = .ok ()) : x = .ok () ∧ f () = .ok () := by
  cases x with
  | error e => exact absurd h (by simp [Bind.bind, Except.bind])
  | ok a => exact ⟨rfl, by simpa [Bind.bind, Except.bind] using h⟩

/-- Closed form of the envelope check: it passes exactly on an inclusive
1.0-tolerance match of (length, width) or a strict 1.0-tolerance transposed
match, and fails with the size-mismatch error otherwise. -/
theorem envelopeCheck_eq (sx sy L W : ℚ) :
    envelopeCheck sx sy L W =
      if (|sx - L| ≤ 1 ∧ |sy - W| ≤ 1) ∨ (|sx - W| < 1 ∧ |sy - L| < 1)
      then .ok () else .error (.sizeMismatch sx sy L W) := by
  unfold envelopeCheck
  by_cases h1 : |sx - L| > 1 ∨ |sy - W| > 1
  · by_cases h2 : |sx - W| < 1 ∧ |sy - L| < 1
    · rw [if_pos h1, if_pos h2, if_pos (Or.inr h2)]
    · have hneg : ¬((|sx - L| ≤ 1 ∧ |sy - W| ≤ 1) ∨ (|sx - W| < 1 ∧ |sy - L| < 1)) := by
        rintro (⟨ha, hb⟩ | htr)
        · rcases h1 with h1 | h1 <;> linarith
        · exact h2 htr
      rw [if_pos h1, if_neg h2, if_neg hneg]
  · rw [if_neg h1]
    push_neg at h1
    rw [if_pos (Or.inl ⟨h1.1, h1.2⟩)]

end CadAgent

namespace CadAgent

/-- Claim C3: for every plate document and requested envelope, the acceptance
validator passes the envelope check iff the outline bounding box matches the
requested (length, width) within inclusive 1.0 absolute tolerance or the
transposed (width, length) within strict 1.0 tolerance, failing with the
size-mismatch error otherwise; and whenever the full check_plate run passes,
the envelope condition holds of the outline-layer bounding box. -/
theorem check_plate_envelope_spec :
    (∀ sx sy L W : ℚ,
      envelopeCheck sx sy L W =
        if (|sx - L| ≤ 1 ∧ |sy - W| ≤ 1) ∨ (|sx - W| < 1 ∧ |sy - L| < 1)
        then .ok () else .error (.sizeMismatch sx sy L W))
  ∧ (∀ (extents : List DxfEntity → Option (ℚ × ℚ)) (doc : DxfDoc)
        (p : PlateParams) (sx sy : ℚ),
      check_plate extents doc p = .ok () →
      extents (entitiesOn doc "outline") = some (sx, sy) →
      ((|sx - p.length| ≤ 1 ∧ |sy - p.width| ≤ 1) ∨
       (|sx - p.width| < 1 ∧ |sy - p.length| < 1))) := by
  refine ⟨envelopeCheck_eq, ?_⟩
  intro extents doc p sx sy h hext
  unfold check_plate at h
  obtain ⟨-, h⟩ := exceptSeq_ok h
  obtain ⟨-, h⟩ := exceptSeq_ok h
  obtain ⟨-, h⟩ := exceptSeq_ok h
  obtain ⟨henv, -⟩ := exceptSeq_ok h
  rw [hext] at henv
  have henv2 : envelopeCheck sx sy p.length p.width = Except.ok () := henv
  rw [envelopeCheck_eq] at henv2
  split at henv2
  · assumption
  · exact absurd henv2 (by simp)

end CadAgent

namespace CadAgent

/-- Example plate spec: 500 x 300 x 10 plate with 12 mm corner holes at
25 mm corner offset and no other features (the representative spec of the
specification's test properties). -/
def plateParamsEx : PlateParams :=
  ⟨500, 300, 10, 12, 25, 0, 0, [], [], [], none⟩

/-- Example generated document for plateParamsEx: the closed rectangular
outline polyline plus the four corner-hole circles, on the standard layer
set. -/
def plateDocEx : DxfDoc :=
  ⟨["outline", "hole", "thread", "center", "dimension", "hatch"],
   [.lwpolyline [(0, 0), (500, 0), (500, 300), (0, 300), (0, 0)] true "outline",
    .circle (25, 25) 6 "hole",
    .circle (475, 25) 6 "hole",
    .circle (475, 275) 6 "hole",
    .circle (25, 275) 6 "hole"]⟩

/-- Example bounding-box oracle: the outline of plateDocEx spans 500 x 300. -/
def extentsEx : List DxfEntity → Option (ℚ × ℚ) := fun _ => some (500, 300)

/-- The example document passes the full acceptance check. -/
theorem check_plate_ex : check_plate extentsEx plateDocEx plateParamsEx = .ok () := by
  simp [check_plate, checkLayersE, outlineStage, cornerHoleStage, slotStage,
    threadStage, counterboreStage, keywayStage, envelopeCheck, entitiesOn,
    plateParamsEx, plateDocEx, extentsEx, DxfEntity.layerOf, DxfEntity.isPoly,
    DxfEntity.isCircle, DxfEntity.isArc, DxfEntity.isLine, DxfEntity.polyClosed,
    List.filter, List.contains, List.elem, Bind.bind, Except.bind]
  norm_num

end CadAgent

namespace CadAgent

/-- Claim C3 witness: on the example plate document, whose outline bounding
box is (500, 300), the full acceptance check passes and therefore the
envelope condition holds. -/
theorem check_plate_envelope_spec_witness :
    ((|(500 : ℚ) - plateParamsEx.length| ≤ 1 ∧ |(300 : ℚ) - plateParamsEx.width| ≤ 1) ∨
     (|(500 : ℚ) - plateParamsEx.width| < 1 ∧ |(300 : ℚ) - plateParamsEx.length| < 1)) :=
  check_plate_envelope_spec.2 extentsEx plateDocEx plateParamsEx 500 300
    check_plate_ex rfl

/-- Claim C6: whenever check_plate passes, the generated document satisfies
every feature-count requirement: at least 4 hole-layer circles when corner
holes are requested, at least 2 x (slot count) hole-layer arcs when slots are
requested, at least as many thread-layer circles as threaded holes, at least
2 x (counterbore count) hole-layer circles when counterbores are requested,
and at least one hole-layer polyline when a keyway is requested. -/
theorem check_plate_feature_counts
    (extents : List DxfEntity → Option (ℚ × ℚ)) (doc : DxfDoc) (p : PlateParams)
    (h : check_plate extents doc p = .ok ()) :
    (0 < p.hole_diameter → 4 ≤ ((entitiesOn doc "hole").filter (·.isCircle)).length)
  ∧ (p.slots ≠ [] → p.slots.length * 2 ≤ ((entitiesOn doc "hole").filter (·.isArc)).length)
  ∧ p.threaded_holes.length ≤ ((entitiesOn doc "thread").filter (·.isCircle)).length
  ∧ (p.counterbores ≠ [] →
      p.counterbores.length * 2 ≤ ((entitiesOn doc "hole").filter (·.isCircle)).length)
  ∧ (p.keyway.isSome → 1 ≤ ((entitiesOn doc "hole").filter (·.isPoly)).length) := by
  unfold check_plate at h
  obtain ⟨-, h⟩ := exceptSeq_ok h
  obtain ⟨-, h⟩ := exceptSeq_ok h
  obtain ⟨-, h⟩ := exceptSeq_ok h
  obtain ⟨-, h⟩ := exceptSeq_ok h
  obtain ⟨hch, h⟩ := exceptSeq_ok h
  obtain ⟨hsl, h⟩ := exceptSeq_ok h
  obtain ⟨hth, h⟩ := exceptSeq_ok h
  obtain ⟨hcb, hkw⟩ := exceptSeq_ok h
  refine ⟨?_, ?_, ?_, ?_, ?_⟩
  · intro hpos
    rw [cornerHoleStage, if_pos hpos] at hch
    split at hch
    · exact absurd hch (by simp)
    · omega
  · intro hne
    rw [slotStage, if_pos hne] at hsl
    split at hsl
    · exact absurd hsl (by simp)
    · omega
  · by_cases he : p.threaded_holes = []
    · simp [he]
    · rw [threadStage, if_pos he] at hth
      split at hth
      · exact absurd hth (by simp)
      · omega
  · intro hne
    rw [counterboreStage, if_pos hne] at hcb
    split at hcb
    · exact absurd hcb (by simp)
    · omega
  · intro hsome
    rw [keywayStage, if_pos hsome] at hkw
    split at hkw
    · exact absurd hkw (by simp)
    · rename_i hne
      cases hl : (entitiesOn doc "hole").filter (·.isPoly) with
      | nil => rw [hl] at hne; simp at hne
      | cons a l => simp

/-- Claim C6 witness: the feature-count consequences instantiated on the
example plate document that passes acceptance. -/
theorem check_plate_feature_counts_witness :
    (0 < plateParamsEx.hole_diameter →
      4 ≤ ((entitiesOn plateDocEx "hole").filter (·.isCircle)).length)
  ∧ (plateParamsEx.slots ≠ [] →
      plateParamsEx.slots.length * 2 ≤
        ((entitiesOn plateDocEx "hole").filter (·.isArc)).length)
  ∧ plateParamsEx.threaded_holes.length ≤
      ((entitiesOn plateDocEx "thread").filter (·.isCircle)).length
  ∧ (plateParamsEx.counterbores ≠ [] →
      plateParamsEx.counterbores.length * 2 ≤
        ((entitiesOn plateDocEx "hole").filter (·.isCircle)).length)
  ∧ (plateParamsEx.keyway.isSome →
      1 ≤ ((entitiesOn plateDocEx "hole").filter (·.isPoly)).length) :=
  check_plate_feature_counts extentsEx plateDocEx plateParamsEx check_plate_ex

end CadAgent

namespace CadAgent

/-- Per-slot validation of PlateGenerator.validate (parts/plate.py lines
40-52): positivity, width strictly below length, and position bounds when
both coordinates are present. -/
def slotCheck (L W : ℚ) (s : SlotSpec) : Option ValidationErr :=
  if s.length ≤ 0 ∨ s.width ≤ 0 then some ⟨"plate", "slot", "腰形孔尺寸必须大于 0"⟩
  else if s.length ≤ s.width then some ⟨"plate", "slot", "腰形孔宽度应小于长度"⟩
  else
    match s.x, s.y with
    | some x, some y =>
      if x < 0 ∨ L < x ∨ y < 0 ∨ W < y then
        some ⟨"plate", "slot", "腰形孔位置超出板材范围"⟩
      else none
    | _, _ => none

/-- Per-threaded-hole validation of PlateGenerator.validate (lines 55-59). -/
def threadCheck (th : ThreadedHoleSpec) : Option ValidationErr :=
  if th.diameter ≤ 0 then some ⟨"plate", "threaded_hole", "螺纹孔直径必须大于 0"⟩
  else none

/-- Per-counterbore validation of PlateGenerator.validate (lines 62-69). -/
def counterboreCheck (cb : CounterboreSpec) : Option ValidationErr :=
  if cb.diameter ≤ 0 then some ⟨"plate", "counterbore", "沉孔直径必须大于 0"⟩
  else if cb.depth ≤ 0 then some ⟨"plate", "counterbore", "沉孔深度必须大于 0"⟩
  else none

/-- Keyway validation of PlateGenerator.validate (lines 72-77). -/
def keywayCheck : Option KeywaySpec → Option ValidationErr
  | none => none
  | some k =>
    if k.width ≤ 0 ∨ k.length ≤ 0 then some ⟨"plate", "keyway", "键槽尺寸必须大于 0"⟩
    else none

/-- PlateGenerator.validate (parts/plate.py lines 18-81): envelope
positivity, corner-hole bounds (guarded by corner_offset strictly positive),
per-entry slot, threaded-hole, counterbore and keyway validation, then the
chamfer/fillet mutual exclusion, raising the first failing check.
gen_parts._validate_plate (gen_parts.py lines 79-130) performs the same
sequence with plain ValueError messages. -/
def PlateGenerator.validate (p : PlateParams) : Option ValidationErr :=
  if p.length ≤ 0 ∨ p.width ≤ 0 then some ⟨"plate", "length/width", "必须大于 0"⟩
  else if 0 < p.hole_diameter ∧ 0 < p.corner_offset ∧
      p.length < p.corner_offset + p.hole_diameter / 2 then
    some ⟨"plate", "corner_offset", "孔位置超出板材范围 (X方向)"⟩
  else if 0 < p.hole_diameter ∧ 0 < p.corner_offset ∧
      p.width < p.corner_offset + p.hole_diameter / 2 then
    some ⟨"plate", "corner_offset", "孔位置超出板材范围 (Y方向)"⟩
  else
    match p.slots.findSome? (slotCheck p.length p.width) with
    | some e => some e
    | none =>
      match p.threaded_holes.findSome? threadCheck with
      | some e => some e
      | none =>
        match p.counterbores.findSome? counterboreCheck with
        | some e => some e
        | none =>
          match keywayCheck p.keyway with
          | some e => some e
          | none =>
            if 0 < p.chamfer_size ∧ 0 < p.fillet_radius then
              some ⟨"plate", "chamfer/fillet", "倒角和倒圆不能同时设置"⟩
            else none

/-- Every error produced by a findSome? loop inherits the fixed parameter
name of its per-entry check. -/
theorem findSome?_param {α : Type} (f : α → Option ValidationErr) (nm : String)
    (hf : ∀ a e, f a = some e → e.paramName = nm) :
    ∀ (l : List α) (e : ValidationErr), l.findSome? f = some e → e.paramName = nm := by
  intro l
  induction l with
  | nil => intro e h; simp at h
  | cons a rest ih =>
    intro e h
    rw [List.findSome?_cons] at h
    cases hfa : f a with
    | some v => rw [hfa] at h; cases h; exact hf a e hfa
    | none => rw [hfa] at h; exact ih e h

/-- Errors of slotCheck always name the slot parameter. -/
theorem slotCheck_param (L W : ℚ) (s : SlotSpec) (e : ValidationErr)
    (h : slotCheck L W s = some e) : e.paramName = "slot" := by
  unfold slotCheck at h
  split_ifs at h
  · cases h; rfl
  · cases h; rfl
  · revert h
    cases s.x with
    | none =>
      cases s.y with
      | none => intro h; simp at h
      | some y => intro h; simp at h
    | some x =>
      cases s.y with
      | none => intro h; simp at h
      | some y =>
        intro h
        simp at h
        rw [← h.2]

/-- Errors of threadCheck always name the threaded-hole parameter. -/
theorem threadCheck_param (th : ThreadedHoleSpec) (e : ValidationErr)
    (h : threadCheck th = some e) : e.paramName = "threaded_hole" := by
  unfold threadCheck at h
  split_ifs at h
  all_goals cases h
  all_goals rfl

/-- Errors of counterboreCheck always name the counterbore parameter. -/
theorem counterboreCheck_param (cb : CounterboreSpec) (e : ValidationErr)
    (h : counterboreCheck cb = some e) : e.paramName = "counterbore" := by
  unfold counterboreCheck at h
  split_ifs at h
  all_goals cases h
  all_goals rfl

/-- Errors of keywayCheck always name the keyway parameter. -/
theorem keywayCheck_param (k : Option KeywaySpec) (e : ValidationErr)
    (h : keywayCheck k = some e) : e.paramName = "keyway" := by
  cases k with
  | none => simp [keywayCheck] at h
  | some kw =>
    simp only [keywayCheck] at h
    split_ifs at h
    all_goals cases h
    all_goals rfl

end CadAgent

namespace CadAgent

/-- Claim C10: the corner-hole bounds check of the plate validator is guarded
by corner_offset being strictly positive: for every parameter set with
corner_offset = 0, validate never produces the out-of-range corner_offset
error, even when the hole radius exceeds the plate envelope; with a strictly
positive corner_offset and the same oversized hole, the X-direction
out-of-range error is raised. -/
theorem plate_validate_corner_guard :
    (∀ p : PlateParams, p.corner_offset = 0 →
      (PlateGenerator.validate p).all (fun e => e.paramName != "corner_offset") = true)
  ∧ PlateGenerator.validate ⟨10, 10, 5, 100, 25, 0, 0, [], [], [], none⟩
      = some ⟨"plate", "corner_offset", "孔位置超出板材范围 (X方向)"⟩ := by
  constructor
  · intro p h0
    unfold PlateGenerator.validate
    have hc1 : ¬(0 < p.hole_diameter ∧ 0 < p.corner_offset ∧
        p.length < p.corner_offset + p.hole_diameter / 2) := by
      rw [h0]
      rintro ⟨-, h, -⟩
      exact lt_irrefl 0 h
    have hc2 : ¬(0 < p.hole_diameter ∧ 0 < p.corner_offset ∧
        p.width < p.corner_offset + p.hole_diameter / 2) := by
      rw [h0]
      rintro ⟨-, h, -⟩
      exact lt_irrefl 0 h
    by_cases hLW : p.length ≤ 0 ∨ p.width ≤ 0
    · rw [if_pos hLW]
      decide
    · rw [if_neg hLW, if_neg hc1, if_neg hc2]
      cases hs : p.slots.findSome? (slotCheck p.length p.width) with
      | some e =>
        have hp := findSome?_param _ _ (slotCheck_param p.length p.width) _ _ hs
        simp [Option.all, hp]
      | none =>
        cases hth : p.threaded_holes.findSome? threadCheck with
        | some e =>
          have hp := findSome?_param _ _ threadCheck_param _ _ hth
          simp [Option.all, hp]
        | none =>
          cases hcb : p.counterbores.findSome? counterboreCheck with
          | some e =>
            have hp := findSome?_param _ _ counterboreCheck_param _ _ hcb
            simp [Option.all, hp]
          | none =>
            cases hkw : keywayCheck p.keyway with
            | some e =>
              have hp := keywayCheck_param _ _ hkw
              simp [Option.all, hp]
            | none =>
              by_cases hcf : 0 < p.chamfer_size ∧ 0 < p.fillet_radius
              · rw [if_pos hcf]
                decide
              · rw [if_neg hcf]
                rfl
  · unfold PlateGenerator.validate
    norm_num

/-- Claim C10 witness: a 10 x 10 plate with a 100 mm hole diameter (radius
far beyond the envelope) and corner_offset 0 produces no corner_offset
error. -/
theorem plate_validate_corner_guard_witness :
    (0 : ℚ) < 100 ∧ (10 : ℚ) < 0 + 100 / 2 ∧
    (PlateGenerator.validate ⟨10, 10, 5, 100, 0, 0, 0, [], [], [], none⟩).all
      (fun e => e.paramName != "corner_offset") = true :=
  ⟨by norm_num, by norm_num,
   plate_validate_corner_guard.1 ⟨10, 10, 5, 100, 0, 0, 0, [], [], [], none⟩ rfl⟩

end CadAgent

namespace CadAgent

/-- The gear standard module series STANDARD_MODULE of
engineering_validation.py (GB/T 1357-2008). -/
def STANDARD_MODULE : List ℚ :=
  [1, 1.25, 1.5, 2, 2.5, 3, 4, 5, 6, 8, 10, 12, 16, 20, 25, 32]

/-- Severity classes of the engineering-validator messages, mirroring the
emoji prefix of each message string. -/
inductive Sev where
  | errorFlag
  | warnFlag
  | okFlag
  | infoFlag
  deriving Repr, DecidableEq

/-- Structured counterparts of the message strings produced by
validate_part_design (engineering_validation.py lines 410-483). -/
inductive EngMsg where
  | moduleNonStandard (m : ℚ)
  | moduleStandard (m : ℚ)
  | undercutRisk (teeth : ℤ)
  | bearingInvalid
  | bearingSeries (inner : ℚ)
  | plateThin (thickness length : ℚ)
  deriving Repr, DecidableEq

/-- Severity of each engineering message, given by its emoji prefix in the
source strings. -/
def EngMsg.sev : EngMsg → Sev
  | .moduleNonStandard _ => .errorFlag
  | .moduleStandard _ => .okFlag
  | .undercutRisk _ => .warnFlag
  | .bearingInvalid => .errorFlag
  | .bearingSeries _ => .infoFlag
  | .plateThin _ _ => .warnFlag

/-- Structured recommendations of validate_part_design: material suggestions
and the tolerance-grade suggestion (whose micrometer value, computed from a
cube root in floating point, is abstracted by recording the inputs). -/
inductive EngRec where
  | material (mat reason : String)
  | tolerance (grade code : String) (nominalSize : ℚ)
  deriving Repr, DecidableEq

/-- recommend_material (engineering_validation.py lines 315-348), with the
free-text application argument modelled as its set of matched keywords. -/
def recommend_material (partType : String) (application : List String) :
    List (String × String) :=
  let recs :=
    if partType ∈ ["gear", "shaft", "stepped_shaft", "key", "pin"] then
      (if "high_load" ∈ application ∨ "high_speed" ∈ application then
        [("40Cr", "高强度，适合重载高速")] else []) ++
      [("45", "常用调质钢，性价比高")]
    else if partType ∈ ["spring", "snap_ring", "retainer"] then
      [("65Mn", "弹簧钢，弹性好")]
    else if partType ∈ ["plate", "bracket", "chassis_frame", "flange"] then
      (if "corrosion" ∈ application then [("304", "不锈钢，耐腐蚀")] else []) ++
      [("Q235", "普通碳钢，成本低易加工"), ("HT200", "铸铁，适合大型件")]
    else if partType ∈ ["bearing_housing", "base"] then
      [("HT200", "铸铁，减震好"), ("Q235", "焊接性好")]
    else []
  if recs = [] then [("Q235", "通用材料")] else recs

/-- Grade selection of recommend_tolerance (engineering_validation.py lines
368-373). -/
def toleranceGrade (precision : String) : String :=
  if precision = "high" then "IT6"
  else if precision = "normal" then "IT7"
  else if precision = "low" then "IT9"
  else "IT7"

/-- Code selection of recommend_tolerance (engineering_validation.py lines
393-399). -/
def toleranceCode (featureType precision : String) : String :=
  if featureType = "hole" then
    (if precision = "high" then "H6" else if precision = "normal" then "H7"
     else if precision = "low" then "H8" else "H7")
  else if featureType = "shaft" then
    (if precision = "high" then "h6" else if precision = "normal" then "h7"
     else if precision = "low" then "h9" else "H7")
  else if featureType = "length" then
    (if precision = "high" then "js6" else if precision = "normal" then "js7"
     else if precision = "low" then "js9" else "H7")
  else if featureType = "thread" then
    (if precision = "high" then "6H" else if precision = "normal" then "6H"
     else if precision = "low" then "7H" else "H7")
  else "H7"

/-- The parameter dictionary as seen by validate_part_design: each key is
optionally present, with the source applying per-call-site defaults through
dict.get. -/
structure EngParams where
  module : Option ℚ
  teeth : Option ℤ
  inner_diameter : Option ℚ
  outer_diameter : Option ℚ
  length : Option ℚ
  width : Option ℚ
  thickness : Option ℚ
  deriving Repr, DecidableEq

/-- validate_part_design (engineering_validation.py lines 410-483): the
advisory engineering checker.  Returns (is_valid, messages,
recommendations); the gear branch flags non-standard modules (invalidating)
and undercut-risk tooth counts, the bearing branch flags non-positive or
inverted ring diameters, the plate branch flags a thickness below 1/50 of
the length, and a generic tolerance recommendation is appended when
is_valid survives. -/
def validate_part_design (partType : String) (p : EngParams) :
    Bool × List EngMsg × List EngRec :=
  let gearModule := p.module.getD 0
  let teeth := p.teeth.getD 0
  let stage :
      Bool × List EngMsg × List EngRec :=
    if partType = "gear" then
      let v1 := ¬gearModule ∈ STANDARD_MODULE
      let msgs1 : List EngMsg :=
        if gearModule ∈ STANDARD_MODULE then [.moduleStandard gearModule]
        else [.moduleNonStandard gearModule]
      let msgs2 := if teeth < 17 then msgs1 ++ [.undercutRisk teeth] else msgs1
      (if v1 then false else true, msgs2,
        (recommend_material "gear" []).map (fun r => EngRec.material r.1 r.2))
    else if partType = "bearing" then
      let inner := p.inner_diameter.getD 0
      let outer := p.outer_diameter.getD 0
      if inner ≤ 0 ∨ outer ≤ inner then
        (false, [.bearingInvalid, .bearingSeries inner], [])
      else (true, [.bearingSeries inner], [])
    else if partType = "plate" then
      let ln := p.length.getD 0
      let th := p.thickness.getD 0
      ((true : Bool),
       (if th < ln / 50 then [.plateThin th ln] else []),
       (recommend_material "plate" []).map (fun r => EngRec.material r.1 r.2))
    else (true, [], [])
  if stage.1 then
    (stage.1, stage.2.1,
      stage.2.2 ++ [.tolerance (toleranceGrade "normal")
        (toleranceCode "length" "normal") (p.length.getD 100)])
  else stage

/-- Warnings accumulated by PartValidator.validate (core/agent.py lines
263-282): engineering messages, per-recommendation suggestion lines, and the
final flag line when engineering validation reported a problem. -/
inductive AgentWarning where
  | engMsg (m : EngMsg)
  | suggestion (r : EngRec)
  | engInvalid
  deriving Repr, DecidableEq

/-- PartValidator.validate (core/agent.py lines 249-283): the pass/fail flag
and message come from the DXF acceptance check alone (validate_dxf_file,
passed in as its outcome); when engineering validation is enabled its
findings are only appended to the warnings list. -/
def PartValidator.validate (enableEngineering : Bool) (dxfOutcome : Bool × String)
    (partType : String) (p : EngParams) : Bool × String × List AgentWarning :=
  let warnings : List AgentWarning :=
    if enableEngineering then
      let eng := validate_part_design partType p
      (eng.2.1.map .engMsg) ++ (eng.2.2.map .suggestion) ++
        (if eng.1 then [] else [.engInvalid])
    else []
  (dxfOutcome.1, dxfOutcome.2, warnings)

end CadAgent

namespace CadAgent

/-- Claim C2: the pass/fail outcome of PartValidator.validate is exactly the
DXF acceptance outcome, independent of whether engineering validation is
enabled; engineering validation of a gear with module 3 and teeth 20 passes
with no error or warning flag, module 2.7 is flagged non-standard (making
the advisory engineering verdict false without affecting the passed flag),
and teeth 10 yields the undercut advisory. -/
theorem engineering_advisory_spec :
    (∀ (enableEng : Bool) (dxf : Bool × String) (pt : String) (p : EngParams),
      (PartValidator.validate enableEng dxf pt p).1 = dxf.1)
  ∧ (validate_part_design "gear" ⟨some 3, some 20, none, none, none, none, none⟩).1 = true
  ∧ (∀ m ∈ (validate_part_design "gear" ⟨some 3, some 20, none, none, none, none, none⟩).2.1,
      m.sev ≠ Sev.errorFlag ∧ m.sev ≠ Sev.warnFlag)
  ∧ (validate_part_design "gear" ⟨some 2.7, some 20, none, none, none, none, none⟩).1 = false
  ∧ EngMsg.moduleNonStandard 2.7 ∈
      (validate_part_design "gear" ⟨some 2.7, some 20, none, none, none, none, none⟩).2.1
  ∧ EngMsg.undercutRisk 10 ∈
      (validate_part_design "gear" ⟨some 3, some 10, none, none, none, none, none⟩).2.1 := by
  have h3 : (3 : ℚ) ∈ STANDARD_MODULE := by norm_num [STANDARD_MODULE]
  have h27 : ¬((2.7 : ℚ) ∈ STANDARD_MODULE) := by norm_num [STANDARD_MODULE]
  refine ⟨?_, ?_, ?_, ?_, ?_, ?_⟩
  · intro enableEng dxf pt p
    rfl
  · simp [validate_part_design, h3]
  · intro m hm
    simp [validate_part_design, h3] at hm
    subst hm
    exact ⟨by decide, by decide⟩
  · simp [validate_part_design, h27]
  · simp [validate_part_design, h27]
  · simp [validate_part_design, h3]

/-- Claim C2 witness: with a failing DXF outcome and the non-standard module
2.7, the returned passed flag is false both with and without engineering
validation; and the module-3 message carries no error or warning flag. -/
theorem engineering_advisory_spec_witness :
    (PartValidator.validate true (false, "mismatch") "gear"
        ⟨some 2.7, some 20, none, none, none, none, none⟩).1 = false
  ∧ (PartValidator.validate false (false, "mismatch") "gear"
        ⟨some 2.7, some 20, none, none, none, none, none⟩).1 = false
  ∧ ((EngMsg.moduleStandard 3).sev ≠ Sev.errorFlag ∧
     (EngMsg.moduleStandard 3).sev ≠ Sev.warnFlag) :=
  ⟨engineering_advisory_spec.1 true (false, "mismatch") "gear"
      ⟨some 2.7, some 20, none, none, none, none, none⟩,
   engineering_advisory_spec.1 false (false, "mismatch") "gear"
      ⟨some 2.7, some 20, none, none, none, none, none⟩,
   engineering_advisory_spec.2.2.1 (EngMsg.moduleStandard 3)
     (by
        have h3 : (3 : ℚ) ∈ STANDARD_MODULE := by norm_num [STANDARD_MODULE]
        simp [validate_part_design, h3])⟩

end CadAgent

namespace CadAgent

/-- Parameters of the gear family (parts/gear.py), with the draw defaults
materialized by the caller. -/
structure GearParams where
  module : ℚ
  teeth : ℕ
  pressure_angle : ℚ
  bore_diameter : ℚ
  hub_diameter : ℚ
  hub_width : ℚ
  deriving Repr, DecidableEq

/-- GearGenerator.validate (parts/gear.py lines 18-28): positive module,
at least 5 teeth, pressure angle between 10 and 30 degrees. -/
def GearGenerator.validate (p : GearParams) : Option ValidationErr :=
  if p.module ≤ 0 then some ⟨"gear", "module", "模数必须大于 0"⟩
  else if p.teeth < 5 then some ⟨"gear", "teeth", "齿数不能少于 5"⟩
  else if ¬(10 ≤ p.pressure_angle ∧ p.pressure_angle ≤ 30) then
    some ⟨"gear", "pressure_angle", "压力角应在 10-30 度之间"⟩
  else none

/-- A polar point as evaluated by the source: the angle in degrees is
converted to radians (times pi over 180) at the point of use and passed to
the cosine and sine functions (math.cos, math.sin and math.pi are the
floating-point library collaborators, abstracted as C, S and pi). -/
def polarPoint (C S : ℚ → ℚ) (pi r angleDeg : ℚ) : ℚ × ℚ :=
  (r * C (angleDeg * pi / 180), r * S (angleDeg * pi / 180))

/-- The tooth-point loop of GearGenerator.draw (parts/gear.py lines 40-84):
for each tooth index the four trapezoid corners (root, tip at 0.3 and 0.7 of
the half-pitch width, root), using the source's radius formulas. -/
def gearToothPoints (C S : ℚ → ℚ) (pi : ℚ) (p : GearParams) : List (ℚ × ℚ) :=
  let pitch_diameter := p.module * (p.teeth : ℚ)
  let addendum := p.module
  let dedendum := 1.25 * p.module
  let outer_radius := (pitch_diameter + 2 * addendum) / 2
  let root_radius := (pitch_diameter - 2 * dedendum) / 2
  let tooth_angle := 360 / (p.teeth : ℚ)
  let tooth_width_angle := tooth_angle / 2
  (List.range p.teeth).flatMap (fun i =>
    [polarPoint C S pi root_radius ((i : ℚ) * tooth_angle),
     polarPoint C S pi outer_radius ((i : ℚ) * tooth_angle + tooth_width_angle * 0.3),
     polarPoint C S pi outer_radius ((i : ℚ) * tooth_angle + tooth_width_angle * 0.7),
     polarPoint C S pi root_radius ((i : ℚ) * tooth_angle + tooth_width_angle)])

/-- GearGenerator.draw (parts/gear.py lines 30-97): the closed tooth outline
(the point list re-appending its first point), the bore circle, the hub
circle when the hub diameter exceeds the bore, and the dashed pitch circle. -/
def GearGenerator.draw (C S : ℚ → ℚ) (pi : ℚ) (p : GearParams) : List DxfEntity :=
  [DxfEntity.lwpolyline
      (gearToothPoints C S pi p ++ (gearToothPoints C S pi p).take 1) true "outline",
   DxfEntity.circle (0, 0) (p.bore_diameter / 2) "hole"] ++
  (if p.bore_diameter < p.hub_diameter then
    [DxfEntity.circle (0, 0) (p.hub_diameter / 2) "outline"] else []) ++
  [DxfEntity.circle (0, 0) (p.module * (p.teeth : ℚ) / 2) "center"]

/-- Claim C5: for every valid gear parameter set, draw lays the teeth out as
four-point trapezoids spaced 360/teeth degrees apart: with
pitch_diameter = module x teeth, root points at radius
pitch_diameter/2 - 1.25 x module, tip points at radius
pitch_diameter/2 + module, at angles measured counter-clockwise from +X in
degrees and converted to radians (times pi/180) exactly where the cosine and
sine are taken; and the drawn outline polyline is that point list closed by
its first point. -/
theorem gear_teeth_layout (C S : ℚ → ℚ) (pi : ℚ) (p : GearParams)
    (hv : GearGenerator.validate p = none) :
    gearToothPoints C S pi p =
      (List.range p.teeth).flatMap (fun i =>
        [((p.module * (p.teeth : ℚ) / 2 - 1.25 * p.module) *
            C (((i : ℚ) * (360 / (p.teeth : ℚ))) * pi / 180),
          (p.module * (p.teeth : ℚ) / 2 - 1.25 * p.module) *
            S (((i : ℚ) * (360 / (p.teeth : ℚ))) * pi / 180)),
         ((p.module * (p.teeth : ℚ) / 2 + p.module) *
            C (((i : ℚ) * (360 / (p.teeth : ℚ)) +
                (3 / 10) * (360 / (p.teeth : ℚ) / 2)) * pi / 180),
          (p.module * (p.teeth : ℚ) / 2 + p.module) *
            S (((i : ℚ) * (360 / (p.teeth : ℚ)) +
                (3 / 10) * (360 / (p.teeth : ℚ) / 2)) * pi / 180)),
         ((p.module * (p.teeth : ℚ) / 2 + p.module) *
            C (((i : ℚ) * (360 / (p.teeth : ℚ)) +
                (7 / 10) * (360 / (p.teeth : ℚ) / 2)) * pi / 180),
          (p.module * (p.teeth : ℚ) / 2 + p.module) *
            S (((i : ℚ) * (360 / (p.teeth : ℚ)) +
                (7 / 10) * (360 / (p.teeth : ℚ) / 2)) * pi / 180)),
         ((p.module * (p.teeth : ℚ) / 2 - 1.25 * p.module) *
            C (((i : ℚ) * (360 / (p.teeth : ℚ)) + 360 / (p.teeth : ℚ) / 2) * pi / 180),
          (p.module * (p.teeth : ℚ) / 2 - 1.25 * p.module) *
            S (((i : ℚ) * (360 / (p.teeth : ℚ)) + 360 / (p.teeth : ℚ) / 2) * pi / 180))])
  ∧ (GearGenerator.draw C S pi p).head? =
      some (DxfEntity.lwpolyline
        (gearToothPoints C S pi p ++ (gearToothPoints C S pi p).take 1) true "outline") := by
  constructor
  · unfold gearToothPoints
    refine congrArg List.flatten
      (congrArg (fun f => List.map f (List.range p.teeth)) (funext fun i => ?_))
    have hroot : (p.module * (p.teeth : ℚ) - 2 * (1.25 * p.module)) / 2 =
        p.module * (p.teeth : ℚ) / 2 - 1.25 * p.module := by ring
    have htip : (p.module * (p.teeth : ℚ) + 2 * p.module) / 2 =
        p.module * (p.teeth : ℚ) / 2 + p.module := by ring
    have ha1 : (i : ℚ) * (360 / (p.teeth : ℚ)) + 360 / (p.teeth : ℚ) / 2 * 0.3 =
        (i : ℚ) * (360 / (p.teeth : ℚ)) + (3 / 10) * (360 / (p.teeth : ℚ) / 2) := by ring
    have ha2 : (i : ℚ) * (360 / (p.teeth : ℚ)) + 360 / (p.teeth : ℚ) / 2 * 0.7 =
        (i : ℚ) * (360 / (p.teeth : ℚ)) + (7 / 10) * (360 / (p.teeth : ℚ) / 2) := by ring
    simp only [polarPoint, hroot, htip, ha1, ha2]
  · rfl

/-- Claim C5 witness: the layout equality instantiated at a valid concrete
gear (module 3, 20 teeth) with a concrete trig oracle. -/
theorem gear_teeth_layout_witness :
    gearToothPoints (fun x => x) (fun x => x + 1) (314 / 100) ⟨3, 20, 20, 10, 20, 5⟩ =
      (List.range 20).flatMap (fun i =>
        [(((3 : ℚ) * (20 : ℚ) / 2 - 1.25 * 3) *
            (((i : ℚ) * (360 / (20 : ℚ))) * (314 / 100) / 180),
          ((3 : ℚ) * (20 : ℚ) / 2 - 1.25 * 3) *
            ((((i : ℚ) * (360 / (20 : ℚ))) * (314 / 100) / 180) + 1)),
         (((3 : ℚ) * (20 : ℚ) / 2 + 3) *
            ((((i : ℚ) * (360 / (20 : ℚ)) +
                (3 / 10) * (360 / (20 : ℚ) / 2)) * (314 / 100) / 180)),
          ((3 : ℚ) * (20 : ℚ) / 2 + 3) *
            ((((i : ℚ) * (360 / (20 : ℚ)) +
                (3 / 10) * (360 / (20 : ℚ) / 2)) * (314 / 100) / 180) + 1)),
         (((3 : ℚ) * (20 : ℚ) / 2 + 3) *
            ((((i : ℚ) * (360 / (20 : ℚ)) +
                (7 / 10) * (360 / (20 : ℚ) / 2)) * (314 / 100) / 180)),
          ((3 : ℚ) * (20 : ℚ) / 2 + 3) *
            ((((i : ℚ) * (360 / (20 : ℚ)) +
                (7 / 10) * (360 / (20 : ℚ) / 2)) * (314 / 100) / 180) + 1)),
         (((3 : ℚ) * (20 : ℚ) / 2 - 1.25 * 3) *
            ((((i : ℚ) * (360 / (20 : ℚ)) + 360 / (20 : ℚ) / 2) * (314 / 100) / 180)),
          ((3 : ℚ) * (20 : ℚ) / 2 - 1.25 * 3) *
            ((((i : ℚ) * (360 / (20 : ℚ)) + 360 / (20 : ℚ) / 2) * (314 / 100) / 180) + 1))]) :=
  (gear_teeth_layout (fun x => x) (fun x => x + 1) (314 / 100) ⟨3, 20, 20, 10, 20, 5⟩
    (by norm_num [GearGenerator.validate])).1

end CadAgent

namespace CadAgent

/-- An exception raised by the embedded program, classified by its place in
the Python exception hierarchy: exc is an Exception-derived failure, which
the except clause of CustomCodeGenerator.draw catches; baseOnly is a
BaseException that is not an Exception (SystemExit, KeyboardInterrupt),
which that clause does not catch. -/
inductive PyError where
  | exc (message : String)
  | baseOnly (name : String)
  deriving Repr, DecidableEq

/-- CustomCodeGenerator.draw (parts/custom_code.py lines 24-46): the embedded
program is executed against the modelspace (exec over the restricted
environment, abstracted as the execProgram collaborator returning the
resulting document and the optionally raised exception).  The except clause
at line 44 names only Exception, so an Exception-derived failure is caught
and rendered as a height-5 error-text entity at the origin, while a
BaseException-only exception such as SystemExit propagates out of draw. -/
def CustomCodeGenerator.draw (execProgram : DxfDoc → DxfDoc × Option PyError)
    (doc : DxfDoc) : Except PyError DxfDoc :=
  match execProgram doc with
  | (d, none) => .ok d
  | (d, some (.exc e)) =>
    .ok ⟨d.layers, d.entities ++ [.text ("Error: " ++ e) 5 (0, 0) "0"]⟩
  | (_, some (.baseOnly n)) => .error (.baseOnly n)

/-- Claim C8 (code bug): draw catches Exception-derived execution failures
and renders them as the in-document error annotation, but it does not catch
a BaseException-only exception: a program that raises SystemExit propagates
it out of draw, contradicting the claim that draw never propagates an
exception raised by the embedded program and always returns normally. -/
theorem custom_code_draw_except_scope :
    CustomCodeGenerator.draw (fun d => (d, some (.exc "boom"))) ⟨["outline"], []⟩
      = .ok ⟨["outline"], [.text "Error: boom" 5 (0, 0) "0"]⟩
  ∧ CustomCodeGenerator.draw (fun d => (d, none)) ⟨["outline"], []⟩
      = .ok ⟨["outline"], []⟩
  ∧ CustomCodeGenerator.draw (fun d => (d, some (.baseOnly "SystemExit")))
        ⟨["outline"], []⟩
      = .error (.baseOnly "SystemExit") :=
  ⟨rfl, rfl, rfl⟩

/-- Drawing side effects of PartGenerator.generate, in execution order. -/
inductive DrawEffect where
  | docCreated
  | drew
  | fileSaved
  deriving Repr, DecidableEq

/-- Errors raised by PartGenerator.generate: a ValidationError from the
validate stage, or a GenerationError wrapping a draw or save failure. -/
inductive GenError where
  | validation (e : ValidationErr)
  | generation (partType : String) (message : String)
  deriving Repr, DecidableEq

/-- PartGenerator.generate (core/base.py lines 112-153), parameterized by the
family's validate and draw methods and by the file-save outcome: validate
runs first (and is a pure function here, as each family's validate only
inspects the parameter dictionary); only when it succeeds is the document
created, drawn into, and saved.  The returned effect list records which
side effects occurred. -/
def PartGenerator.generate {α : Type} (partType : String)
    (validate : α → Option ValidationErr) (draw : α → Except String Unit)
    (save : Except String Unit) (params : α) :
    Except GenError Unit × List DrawEffect :=
  match validate params with
  | some e => (.error (.validation e), [])
  | none =>
    match draw params with
    | .error m => (.error (.generation partType m), [.docCreated])
    | .ok _ =>
      match save with
      | .error m =>
        (.error (.generation partType ("保存文件失败: " ++ m)), [.docCreated, .drew])
      | .ok _ => (.ok (), [.docCreated, .drew, .fileSaved])

/-- Claim C9: generate runs validate before any drawing side effect: whenever
validate fails, generate raises exactly that ValidationError (naming the
offending field and reason) and the effect list is empty, for every family
validate/draw pair and every parameter set; and when validate succeeds the
effects happen in document-creation, draw, save order. -/
theorem generate_validates_first {α : Type} (partType : String)
    (validate : α → Option ValidationErr) (draw : α → Except String Unit)
    (save : Except String Unit) (params : α) :
    (∀ e, validate params = some e →
      PartGenerator.generate partType validate draw save params
        = (.error (.validation e), []))
  ∧ (validate params = none →
      (PartGenerator.generate partType validate draw save params).2.take 1
        = [DrawEffect.docCreated]) := by
  constructor
  · intro e h
    simp [PartGenerator.generate, h]
  · intro h
    simp only [PartGenerator.generate, h]
    cases draw params with
    | error m => rfl
    | ok v => cases save <;> rfl

/-- Claim C9 witness: the stepped-shaft validator rejects the empty section
list, so generate returns that ValidationError having performed no drawing
side effect. -/
theorem generate_validates_first_witness :
    PartGenerator.generate "stepped_shaft" SteppedShaftGenerator.validate
        (fun _ => .ok ()) (.ok ()) ([] : List ShaftSection)
      = (.error (.validation ⟨"stepped_shaft", "sections", "阶梯轴至少需要 2 段"⟩), []) :=
  (generate_validates_first "stepped_shaft" SteppedShaftGenerator.validate
    (fun _ => .ok ()) (.ok ()) ([] : List ShaftSection)).1
    ⟨"stepped_shaft", "sections", "阶梯轴至少需要 2 段"⟩ (by decide)

end CadAgent

namespace CadAgent

/-- AgentResult (core/agent.py lines 17-25). -/
structure AgentResult (σ : Type) where
  success : Bool
  output_file : Option String
  spec : Option σ
  reasoning : String
  error : Option String
  warnings : List String
  deriving Repr, DecidableEq

/-- The result returned after the attempt loop runs out (core/agent.py lines
432-435). -/
def exhaustedResult {σ : Type} : AgentResult σ :=
  ⟨false, none, none, "", some "已达到最大重试次数", []⟩

/-- AgentConfig (core/config.py lines 29-40) with its dataclass defaults. -/
structure AgentConfig where
  max_iterations : ℕ
  enable_memory : Bool
  memory_file : String
  enable_validation : Bool
  enable_standard_parts : Bool
  verbose : Bool
  deriving Repr, DecidableEq

/-- The dataclass default values of AgentConfig. -/
def AgentConfig.default : AgentConfig :=
  ⟨3, true, "agent_memory.json", true, true, true⟩

/-- The attempt loop of CADAgent.run (core/agent.py lines 368-435),
parameterized by the external collaborators: infer (the inference call,
returning spec and reasoning from the current feedback), gen (the DXF
generation, whose ValueError message becomes feedback), and accept (the
acceptance validator outcome).  The second returned component is the trace
of feedback values passed to each inference call, in order. -/
def CADAgent.runLoop {σ : Type} (infer : Option String → σ × String)
    (gen : σ → Except String Unit) (accept : σ → Bool × String)
    (outputFile : String) :
    ℕ → Option String → List (Option String) → AgentResult σ × List (Option String)
  | 0, _, calls => (exhaustedResult, calls.reverse)
  | n + 1, fb, calls =>
    match gen (infer fb).1 with
    | .error m =>
      CADAgent.runLoop infer gen accept outputFile n
        (some ("参数校验失败: " ++ m)) (fb :: calls)
    | .ok _ =>
      if (accept (infer fb).1).1 then
        (⟨true, some outputFile, some (infer fb).1, (infer fb).2, none, []⟩,
         (fb :: calls).reverse)
      else
        CADAgent.runLoop infer gen accept outputFile n
          (some ("验证失败: " ++ (accept (infer fb).1).2)) (fb :: calls)

/-- CADAgent.run (core/agent.py lines 335-435): the loop started with no
feedback and max_iterations attempts. -/
def CADAgent.run {σ : Type} (infer : Option String → σ × String)
    (gen : σ → Except String Unit) (accept : σ → Bool × String)
    (outputFile : String) (maxIterations : ℕ) :
    AgentResult σ × List (Option String) :=
  CADAgent.runLoop infer gen accept outputFile maxIterations none []

/-- The feedback passed to the k-th inference call (0-based) when every
attempt fails acceptance: none for the first call, then the previous failure
message prefixed as in core/agent.py line 402. -/
def feedbackAt {σ : Type} (infer : Option String → σ × String)
    (accept : σ → Bool × String) : ℕ → Option String
  | 0 => none
  | k + 1 => some ("验证失败: " ++ (accept (infer (feedbackAt infer accept k)).1).2)

/-- When generation succeeds but acceptance always fails, each round of the
loop consumes one attempt and chains the feedback. -/
theorem runLoop_exhausts {σ : Type} (infer : Option String → σ × String)
    (gen : σ → Except String Unit) (accept : σ → Bool × String)
    (outputFile : String)
    (hgen : ∀ s, gen s = .ok ())
    (hfail : ∀ s, (accept s).1 = false) :
    ∀ (n k : ℕ),
      CADAgent.runLoop infer gen accept outputFile n
          (feedbackAt infer accept k)
          (((List.range k).map (feedbackAt infer accept)).reverse)
        = (exhaustedResult, (List.range (k + n)).map (feedbackAt infer accept)) := by
  intro n
  induction n with
  | zero =>
    intro k
    simp [CADAgent.runLoop]
  | succ n ih =>
    intro k
    rw [CADAgent.runLoop]
    rw [hgen ((infer (feedbackAt infer accept k)).1)]
    rw [if_neg (by rw [hfail ((infer (feedbackAt infer accept k)).1)]; exact Bool.false_ne_true)]
    have hcons : feedbackAt infer accept k ::
        ((List.range k).map (feedbackAt infer accept)).reverse
        = ((List.range (k + 1)).map (feedbackAt infer accept)).reverse := by
      rw [List.range_succ, List.map_append, List.reverse_append]
      rfl
    have hfb : some ("验证失败: " ++ (accept (infer (feedbackAt infer accept k)).1).2)
        = feedbackAt infer accept (k + 1) := rfl
    rw [hcons, hfb, ih (k + 1)]
    have : k + 1 + n = k + (n + 1) := by omega
    rw [this]

/-- Claim C4: with an inference collaborator that always returns a spec which
generates but fails acceptance, CADAgent.run performs exactly N attempts
(N = max_iterations): it makes exactly N inference calls, the first with no
feedback and each subsequent one with the previous failure message as
feedback, and ends with the unsuccessful max-retries AgentResult; the
default max_iterations is 3. -/
theorem orchestrator_exhaustion {σ : Type} (infer : Option String → σ × String)
    (gen : σ → Except String Unit) (accept : σ → Bool × String)
    (outputFile : String) (N : ℕ)
    (hgen : ∀ s, gen s = .ok ())
    (hfail : ∀ s, (accept s).1 = false) :
    CADAgent.run infer gen accept outputFile N
      = (exhaustedResult, (List.range N).map (feedbackAt infer accept))
  ∧ ((List.range N).map (feedbackAt infer accept)).length = N
  ∧ AgentConfig.default.max_iterations = 3 := by
  refine ⟨?_, by simp, rfl⟩
  have h := runLoop_exhausts infer gen accept outputFile hgen hfail N 0
  simpa [CADAgent.run, feedbackAt] using h

/-- Claim C4 witness: a concrete always-failing collaborator over string
specs, run with the default 3 iterations, makes exactly the three chained
inference calls and ends exhausted. -/
theorem orchestrator_exhaustion_witness :
    CADAgent.run (fun fb => (fb.getD "", "r")) (fun _ => .ok ())
        (fun _ => (false, "bad")) "out.dxf" AgentConfig.default.max_iterations
      = (exhaustedResult,
         [none, some "验证失败: bad", some "验证失败: bad"]) := by
  have h := (orchestrator_exhaustion (fun fb => (fb.getD "", "r")) (fun _ => .ok ())
    (fun _ => (false, "bad")) "out.dxf" AgentConfig.default.max_iterations
    (fun _ => rfl) (fun _ => rfl)).1
  rw [h]
  rfl

end CadAgent
